import Mathlib

/-
Verification of the entitlement and completion pipeline of the
sariyah-course-server backend (Express + Mongoose).

The definitions below are a shallow embedding of the controller and
service functions of the repository:

* `updateOrderStatus`, `updateOrder`, `createOrder`
    from src/controllers/order.controller.js
* `adminMarkPaid`, `getDownloadLinks`, `checkoutFromCart`
    from the digital-order controller
* `updateProgress` from src/controllers/progress.controller.js
* `recalculateCourseProgress` from the progress controller variant that
  counts lessons with Lesson.countDocuments
* `updateEnrollmentProgress` from the enrollment controller
* `generateAndUploadCertificate` from the certificate service,
  with Certificate.create guarded by the unique (student, course) index
  declared in src/models/certificate.model.js

Mongo document ids are modelled as natural numbers, collections as lists,
`findOne`/`findById` as the result of the corresponding lookup passed in or
computed with `List.find?`, and thrown HTTP errors as `Except.error` of an
`HttpError` record.  The impure collaborators are parameters: token
generation (`crypto.randomBytes`) is a function from draw index to string,
the clock (`Date.now()`) is a natural number of milliseconds, and the email
collaborator is a boolean describing whether the dispatch succeeds; every
controller wraps email dispatch in try/catch, which the embedding reflects
by letting the email flag influence only the log of delivered messages,
never the returned state or response.
-/

namespace Sariyah

/-- Payment status enum of the Order and DigitalOrder schemas:
`{pending, paid, failed}`. -/
inductive PayStatus where
  | pending
  | paid
  | failed
deriving DecidableEq, Repr

/-- An error produced with `res.status(code); throw new Error(msg)`. -/
structure HttpError where
  code : Nat
  msg : String
deriving DecidableEq, Repr

/-- Enrollment document (src/models/enrollment.model.js): unique
(student, course) pair, progress percent defaulting to 0, completed flag
defaulting to false. -/
structure Enrollment where
  student : Nat
  course : Nat
  progress : Nat := 0
  completed : Bool := false
deriving DecidableEq, Repr

/-- Course order document (src/models/order.model.js fields read by the
pipeline).  `paymentNumber` is stored as a string. -/
structure Order where
  user : Nat
  course : Nat
  amount : Nat
  paymentMethod : String
  paymentNumber : String
  transactionId : String
  paymentStatus : PayStatus
deriving DecidableEq, Repr

/-- Catalog fields of a course read by the pipeline
(src/models/course.model.js): price, discount, publication flag, the
instructor, and the `lessons` id array. -/
structure Course where
  id : Nat
  instructor : Nat
  lessons : List Nat := []
  price : Nat := 0
  discountPrice : Nat := 0
  isPublished : Bool := true
  title : String := ""
deriving DecidableEq, Repr

/-- Key predicate of the unique (student, course) index on enrollments. -/
def enrKey (s c : Nat) (e : Enrollment) : Bool :=
  e.student == s && e.course == c

/-- `Enrollment.findOne({ student, course })`. -/
def findEnrollment (l : List Enrollment) (s c : Nat) : Option Enrollment :=
  l.find? (enrKey s c)

/-- Whether an enrollment for the pair exists. -/
def enrolledIn (l : List Enrollment) (s c : Nat) : Bool :=
  (findEnrollment l s c).isSome

/-- Number of enrollments stored for a pair. -/
def enrollCount (l : List Enrollment) (s c : Nat) : Nat :=
  (l.filter (enrKey s c)).length

/-- `enrollment.save()` after mutating the document found for the pair. -/
def replaceEnrollment (l : List Enrollment) (s c : Nat) (e' : Enrollment) :
    List Enrollment :=
  l.map fun e => if enrKey s c e then e' else e

/-- Parse of the request's `paymentStatus` against
`['pending', 'paid', 'failed']`; any other value (including the missing or
empty string rejected by the truthiness check) is invalid. -/
def parseStatus : String → Option PayStatus
  | "pending" => some .pending
  | "paid" => some .paid
  | "failed" => some .failed
  | _ => none

/-- Request body of PATCH /api/orders/:id/status. -/
structure OrderStatusBody where
  paymentStatus : String
  transactionId : Option String := none
  paymentNumber : Option String := none
deriving DecidableEq, Repr

/-- Outcome of an order status or order update call: the saved order, the
enrollment collection afterwards, and the users to whom a confirmation
email was actually delivered (dispatch failures are swallowed). -/
structure OrderStatusResult where
  order : Order
  enrollments : List Enrollment
  emails : List Nat
deriving DecidableEq, Repr

/-- `updateOrderStatus` (src/controllers/order.controller.js, admin PATCH
/api/orders/:id/status): validates the status string, rejects a missing
order, rejects any change once the order is paid, otherwise applies the
status and the optional transaction fields; on a transition to paid it
creates the enrollment unless one already exists and best-effort sends a
confirmation email. -/
def updateOrderStatus (body : OrderStatusBody) (findOrder : Option Order)
    (enrs : List Enrollment) (emailOk : Bool) :
    Except HttpError OrderStatusResult :=
  match parseStatus body.paymentStatus with
  | none => .error ⟨400, "Invalid payment status"⟩
  | some st =>
    match findOrder with
    | none => .error ⟨404, "Order not found"⟩
    | some o =>
      if o.paymentStatus = .paid then
        .error ⟨400, "This order has already been completed and cannot be changed."⟩
      else
        let o1 := { o with paymentStatus := st }
        let o2 := match body.transactionId with
          | some t => { o1 with transactionId := t }
          | none => o1
        let o3 := match body.paymentNumber with
          | some p => { o2 with paymentNumber := p }
          | none => o2
        if st = .paid then
          let enrs' :=
            if enrolledIn enrs o3.user o3.course then enrs
            else enrs ++ [{ student := o3.user, course := o3.course }]
          .ok ⟨o3, enrs', if emailOk then [o3.user] else []⟩
        else
          .ok ⟨o3, enrs, []⟩

/-- Request body of PUT /api/orders/:id (admin `updateOrder`).  Every field
is optional; `paymentStatus` is assigned to the document directly, so it is
modelled already parsed (an out-of-enum value would fail Mongoose
validation at save). -/
structure OrderUpdateBody where
  paymentMethod : Option String := none
  paymentNumber : Option String := none
  transactionId : Option String := none
  amount : Option Nat := none
  paymentStatus : Option PayStatus := none
deriving DecidableEq, Repr

/-- `updateOrder` (src/controllers/order.controller.js, admin PUT
/api/orders/:id): overwrites any provided field, `paymentStatus` included,
with no guard on the previous status; the enrollment creation and email are
performed only when the body sets `paid` and the previous status was not
`paid`. -/
def updateOrder (body : OrderUpdateBody) (findOrder : Option Order)
    (enrs : List Enrollment) (emailOk : Bool) :
    Except HttpError OrderStatusResult :=
  match findOrder with
  | none => .error ⟨404, "Order not found"⟩
  | some o =>
    let prev := o.paymentStatus
    let o1 := match body.paymentMethod with
      | some m => { o with paymentMethod := m }
      | none => o
    let o2 := match body.paymentNumber with
      | some p => { o1 with paymentNumber := p }
      | none => o1
    let o3 := match body.transactionId with
      | some t => { o2 with transactionId := t }
      | none => o2
    let o4 := match body.amount with
      | some a => { o3 with amount := a }
      | none => o3
    let o5 := match body.paymentStatus with
      | some s => { o4 with paymentStatus := s }
      | none => o4
    if body.paymentStatus = some .paid ∧ prev ≠ .paid then
      let enrs' :=
        if enrolledIn enrs o5.user o5.course then enrs
        else enrs ++ [{ student := o5.user, course := o5.course }]
      .ok ⟨o5, enrs', if emailOk then [o5.user] else []⟩
    else
      .ok ⟨o5, enrs, []⟩

/-- Request body of POST /api/orders (`createOrder`); absent or empty
fields are `none`. -/
structure CreateOrderBody where
  courseId : Option Nat := none
  paymentMethod : Option String := none
  paymentNumber : Option String := none
  transactionId : Option String := none
deriving DecidableEq, Repr

/-- Outcome of `createOrder`: HTTP status of the success response, the
order collection, the enrollment collection, and delivered emails. -/
structure CreateOrderResult where
  status : Nat
  orders : List Order
  enrollments : List Enrollment
  emails : List Nat
deriving DecidableEq, Repr

/-- Payment methods accepted for a priced course. -/
def allowedPaymentMethods : List String :=
  ["bkash", "nagad", "rocket", "bank", "card", "cash"]

/-- `createOrder` (src/controllers/order.controller.js): validates the
course id, requires a published course, rejects an existing enrollment;
for a zero-price course it creates the order directly `paid`, creates the
enrollment immediately and best-effort emails a confirmation; for a priced
course it validates the payment fields, rejects a duplicate pending/paid
order, and creates the order `pending`. -/
def createOrder (userId : Nat) (body : CreateOrderBody)
    (courses : List Course) (orders : List Order) (enrs : List Enrollment)
    (emailOk : Bool) : Except HttpError CreateOrderResult :=
  match body.courseId with
  | none => .error ⟨400, "Valid course ID is required"⟩
  | some cid =>
    match courses.find? (fun c => c.id == cid) with
    | none => .error ⟨404, "Course not found or is not available"⟩
    | some course =>
      if course.isPublished = false then
        .error ⟨404, "Course not found or is not available"⟩
      else if enrolledIn enrs userId cid then
        .error ⟨409, "You are already enrolled in this course"⟩
      else if course.price = 0 then
        let o : Order :=
          { user := userId, course := cid, amount := 0,
            paymentMethod := "free", paymentNumber := "0",
            transactionId := "free_" ++ toString userId ++ "_" ++ toString cid,
            paymentStatus := .paid }
        let enr : Enrollment := { student := userId, course := cid }
        .ok ⟨201, orders ++ [o], enrs ++ [enr],
             if emailOk then [userId] else []⟩
      else
        match body.paymentMethod, body.paymentNumber, body.transactionId with
        | some pm, some pn, some txn =>
          if (allowedPaymentMethods.contains pm.toLower) = false then
            .error ⟨400, "Invalid payment method"⟩
          else if orders.any (fun o =>
              o.user == userId && o.course == cid &&
              (o.paymentStatus == .pending || o.paymentStatus == .paid)) then
            .error ⟨409, "You already have an active order for this course."⟩
          else
            let amount :=
              if course.discountPrice > 0 then course.discountPrice
              else course.price
            let o : Order :=
              { user := userId, course := cid, amount := amount,
                paymentMethod := pm, paymentNumber := pn,
                transactionId := txn, paymentStatus := .pending }
            .ok ⟨201, orders ++ [o], enrs, []⟩
        | _, _, _ =>
          .error ⟨400, "Payment method, number, and transaction ID are required for paid courses."⟩

/-! ## Digital orders (digital-order controller and
src/models/digitalOrder.model.js) -/

/-- A line item of a DigitalOrder. -/
structure OrderItem where
  product : Nat
  price : Nat
  titleSnapshot : String
deriving DecidableEq, Repr

/-- An embedded download token (`downloadTokenSchema`): schema defaults are
`maxDownloads: 5` and `downloads: 0`. -/
structure DownloadToken where
  product : Nat
  token : String
  expiresAt : Nat
  maxDownloads : Nat := 5
  downloads : Nat := 0
deriving DecidableEq, Repr

/-- DigitalOrder document (src/models/digitalOrder.model.js fields read by
the pipeline). -/
structure DigitalOrder where
  user : Nat
  items : List OrderItem
  amount : Nat
  paymentMethod : String
  paymentStatus : PayStatus
  transactionId : String
  downloadTokens : List DownloadToken
deriving DecidableEq, Repr

/-- `1000 * 60 * 60 * 24 * 7` milliseconds: the 7-day token validity. -/
def sevenDaysMs : Nat := 1000 * 60 * 60 * 24 * 7

/-- `order.items.map((it) => ({ product: it.product, token: generateToken(),
expiresAt: new Date(Date.now() + 7 days) }))`: one token per line item;
`gen` is the stream of `crypto.randomBytes(24).toString("hex")` draws and
`i` the index of the next draw; `maxDownloads`/`downloads` take the schema
defaults 5 and 0. -/
def mintTokens (gen : Nat → String) (now : Nat) :
    Nat → List OrderItem → List DownloadToken
  | _, [] => []
  | i, it :: rest =>
    { product := it.product, token := gen i, expiresAt := now + sevenDaysMs } ::
      mintTokens gen now (i + 1) rest

/-- Request body of PATCH /api/digital-orders/:id/status. -/
structure MarkPaidBody where
  paymentStatus : Option PayStatus := none
  transactionId : Option String := none
deriving DecidableEq, Repr

/-- Outcome of `adminMarkPaid`: the saved order and delivered emails. -/
structure MarkPaidResult where
  order : DigitalOrder
  emails : List Nat
deriving DecidableEq, Repr

/-- The field assignments of `adminMarkPaid`: `if (paymentStatus)
order.paymentStatus = paymentStatus; if (transactionId) order.transactionId
= transactionId`. -/
def applyMarkPaidBody (body : MarkPaidBody) (o : DigitalOrder) : DigitalOrder :=
  let o1 := match body.paymentStatus with
    | some s => { o with paymentStatus := s }
    | none => o
  match body.transactionId with
  | some t => { o1 with transactionId := t }
  | none => o1

/-- `adminMarkPaid` (digital-order controller, admin PATCH
/api/digital-orders/:id/status): applies the provided status and
transaction id with no guard on the previous status; if the resulting
status is `paid` it regenerates the whole download token set (and emails
only on a fresh transition to paid), otherwise it clears the token set. -/
def adminMarkPaid (body : MarkPaidBody) (findOrder : Option DigitalOrder)
    (gen : Nat → String) (now : Nat) (emailOk : Bool) :
    Except HttpError MarkPaidResult :=
  match findOrder with
  | none => .error ⟨404, "Order not found"⟩
  | some o =>
    let prev := o.paymentStatus
    let o2 := applyMarkPaidBody body o
    if o2.paymentStatus = .paid then
      let o3 := { o2 with downloadTokens := mintTokens gen now 0 o2.items }
      .ok ⟨o3, if prev ≠ .paid ∧ emailOk then [o3.user] else []⟩
    else
      .ok ⟨{ o2 with downloadTokens := [] }, []⟩

/-- The authenticated principal attached by the auth middleware. -/
structure Requester where
  id : Nat
  role : String
deriving DecidableEq, Repr

/-- One element of the response of GET /api/digital-orders/:id/downloads
(the signed-URL construction for the underlying files is a read-only
collaborator call and is elided). -/
structure DownloadLink where
  productId : Nat
  token : Option String
  expiresAt : Option Nat
  remaining : Nat
deriving DecidableEq, Repr

/-- `remaining: token ? Math.max(0, (token.maxDownloads || 5) -
(token.downloads || 0)) : 0`; JavaScript `||` turns a zero `maxDownloads`
into 5, and truncated subtraction on naturals is the `Math.max(0, ...)`
clamp. -/
def linkFor (o : DigitalOrder) (it : OrderItem) : DownloadLink :=
  match o.downloadTokens.find? (fun t => t.product == it.product) with
  | some t =>
    let md := if t.maxDownloads = 0 then 5 else t.maxDownloads
    { productId := it.product, token := some t.token,
      expiresAt := some t.expiresAt, remaining := md - t.downloads }
  | none => { productId := it.product, token := none, expiresAt := none,
              remaining := 0 }

/-- `getDownloadLinks` (digital-order controller, GET
/api/digital-orders/:id/downloads): requires the requester to be the buyer
or an admin and the order to be paid, then builds one link per line item.
The handler performs no write: the order document it returns is the one it
read, `downloads` counters included, and neither the token expiry nor the
quota is checked or consumed. -/
def getDownloadLinks (findOrder : Option DigitalOrder) (req : Requester) :
    Except HttpError (DigitalOrder × List DownloadLink) :=
  match findOrder with
  | none => .error ⟨404, "Order not found"⟩
  | some o =>
    if o.user ≠ req.id ∧ req.role ≠ "admin" then
      .error ⟨403, "Not authorized"⟩
    else if o.paymentStatus ≠ .paid then
      .error ⟨403, "Order is not paid"⟩
    else
      .ok (o, o.items.map (linkFor o))

/-- `n` successive invocations of `getDownloadLinks` by the same requester,
each starting from the order state the previous call left behind. -/
def iterateDownloads (req : Requester) : Nat → DigitalOrder →
    Except HttpError DigitalOrder
  | 0, o => .ok o
  | n + 1, o =>
    match getDownloadLinks (some o) req with
    | .error e => .error e
    | .ok (o', _) => iterateDownloads req n o'

/-- A cart item after `populate({ path: "items.product" })`: the product
id, the price recorded in the cart, and the populated product title. -/
structure CartItem where
  product : Nat
  quantity : Nat := 1
  price : Nat
  title : String
deriving DecidableEq, Repr

/-- Cart document (src/models/cart.model.js). -/
structure Cart where
  user : Nat
  items : List CartItem
  subtotal : Nat
deriving DecidableEq, Repr

/-- Request body of POST /api/digital-orders/checkout. -/
structure CheckoutBody where
  paymentMethod : Option String := none
  transactionId : Option String := none
deriving DecidableEq, Repr

/-- Outcome of `checkoutFromCart`. -/
structure CheckoutResult where
  status : Nat
  order : DigitalOrder
  cart : Cart
  emails : List Nat
deriving DecidableEq, Repr

/-- `checkoutFromCart` (digital-order controller, POST
/api/digital-orders/checkout): rejects an empty cart; for a zero subtotal
it creates the order directly `paid`, mints the download tokens, best-effort
emails a confirmation and clears the cart; for a priced cart it requires
payment fields and creates the order `pending` without touching the cart. -/
def checkoutFromCart (userId : Nat) (body : CheckoutBody)
    (findCart : Option Cart) (gen : Nat → String) (now : Nat)
    (emailOk : Bool) : Except HttpError CheckoutResult :=
  match findCart with
  | none => .error ⟨400, "Cart is empty"⟩
  | some cart =>
    if cart.items.isEmpty then
      .error ⟨400, "Cart is empty"⟩
    else
      let items := cart.items.map fun it =>
        OrderItem.mk it.product it.price it.title
      let amount := cart.subtotal
      if amount = 0 then
        let o0 : DigitalOrder :=
          { user := userId, items := items, amount := 0,
            paymentMethod := "free", paymentStatus := .paid,
            transactionId := "free_" ++ toString userId ++ "_" ++ toString now,
            downloadTokens := [] }
        let o1 := { o0 with downloadTokens := mintTokens gen now 0 items }
        let cart' := { cart with items := [], subtotal := 0 }
        .ok ⟨201, o1, cart', if emailOk then [userId] else []⟩
      else
        match body.paymentMethod, body.transactionId with
        | some pm, some txn =>
          .ok ⟨201,
               { user := userId, items := items, amount := amount,
                 paymentMethod := pm, paymentStatus := .pending,
                 transactionId := txn, downloadTokens := [] },
               cart, []⟩
        | _, _ =>
          .error ⟨400, "paymentMethod and transactionId are required for paid orders"⟩

/-! ## Progress tracker (src/controllers/progress.controller.js, the
enrollment controller, and the certificate service) -/

/-- A lesson document (the fields read by the pipeline: its id and owning
course). -/
structure Lesson where
  id : Nat
  course : Nat
deriving DecidableEq, Repr

/-- Progress document (src/models/progress.model.js): unique
(student, course) pair, completed lesson ids, last watched lesson. -/
structure ProgressDoc where
  student : Nat
  course : Nat
  completedLessons : List Nat := []
  lastWatchedLesson : Option Nat := none
deriving DecidableEq, Repr

/-- Key predicate of the unique (student, course) index on progress
documents. -/
def pKey (s c : Nat) (p : ProgressDoc) : Bool :=
  p.student == s && p.course == c

/-- `Progress.findOne({ student, course })`. -/
def findProgress (l : List ProgressDoc) (s c : Nat) : Option ProgressDoc :=
  l.find? (pKey s c)

/-- `Progress.findOneAndUpdate(..., { upsert: true })`: replace the
document found for the pair, or append a new one. -/
def upsertProgress (l : List ProgressDoc) (s c : Nat) (p' : ProgressDoc) :
    List ProgressDoc :=
  if l.any (pKey s c) then l.map (fun p => if pKey s c p then p' else p)
  else l ++ [p']

/-- The state touched by the progress controller: the course catalog, the
lesson collection, enrollments, progress documents, and the log of
`generateAndUploadCertificate(studentId, courseId)` invocations fired by
the completion trigger. -/
structure ProgressState where
  courses : List Course
  lessons : List Lesson
  enrollments : List Enrollment
  progresses : List ProgressDoc
  certCalls : List (Nat × Nat)
deriving DecidableEq, Repr

/-- `Lesson.countDocuments({ course: courseId })`. -/
def totalLessonsIn (st : ProgressState) (c : Nat) : Nat :=
  (st.lessons.filter (fun l => l.course == c)).length

/-- `Math.round((completedLessonsCount / totalLessons) * 100)` computed
exactly on rationals for `t > 0`: `⌊100 c / t + 1 / 2⌋ = ⌊(200 c + t) /
(2 t)⌋` (JavaScript `Math.round` rounds half toward positive infinity,
which for nonnegative arguments is half up). -/
def jsRound100 (c t : Nat) : Nat := (200 * c + t) / (2 * t)

/-- `$addToSet`: append the lesson id unless it is already present. -/
def addToSet (l : List Nat) (x : Nat) : List Nat :=
  if x ∈ l then l else l ++ [x]

/-- `$pull`: remove every occurrence of the lesson id. -/
def pull (l : List Nat) (x : Nat) : List Nat := l.filter (· ≠ x)

/-- The progress document after the `findOneAndUpdate`: start from the
stored document (or the upsert default), set `lastWatchedLesson`, and add
or remove the lesson id according to the `completed` flag. -/
def progressAfter (ps : List ProgressDoc) (sid cid lid : Nat)
    (comp : Bool) : ProgressDoc :=
  let p0 := (findProgress ps sid cid).getD
    { student := sid, course := cid }
  { p0 with
    completedLessons :=
      if comp then addToSet p0.completedLessons lid
      else pull p0.completedLessons lid,
    lastWatchedLesson := some lid }

/-- The enrollment after the synchronization block: the document is
written only when the recomputed percent differs from the stored value, in
which case `completed` is set to whether the percent is 100. -/
def syncedEnrollment (e : Enrollment) (newPct : Nat) : Enrollment :=
  if e.progress ≠ newPct then
    { e with progress := newPct, completed := newPct == 100 }
  else e

/-- Response payload of PATCH /api/progress/update: the state afterwards
and the `enrollmentPercentage` field of the response body. -/
structure UpdateProgressResult where
  state : ProgressState
  enrollmentPercentage : Nat
deriving DecidableEq, Repr

/-- `updateProgress` (src/controllers/progress.controller.js, student
PATCH /api/progress/update): requires an enrollment for the pair and a
lesson belonging to the course, upserts the progress document, then
recomputes the percentage over `course.lessons.length` and writes it to
the enrollment only when it changed; afterwards, whenever the (possibly
just updated) enrollment is marked completed, the certificate issuer is
invoked fire-and-forget.  The guard `if (totalLessons > 0)` skips the
whole synchronization when the course document's lesson list is empty; a
missing course document makes the handler throw on the `course.lessons`
read, surfaced by `asyncHandler` as a 500. -/
def updateProgress (sid cid lid : Nat) (comp : Bool) (st : ProgressState) :
    Except HttpError UpdateProgressResult :=
  match findEnrollment st.enrollments sid cid with
  | none => .error ⟨403, "Not authorized. You are not enrolled in this course."⟩
  | some e =>
    if st.lessons.any (fun l => l.id == lid && l.course == cid) then
      let p' := progressAfter st.progresses sid cid lid comp
      let st1 := { st with progresses := upsertProgress st.progresses sid cid p' }
      match st.courses.find? (fun c => c.id == cid) with
      | none => .error ⟨500, "TypeError: Cannot read properties of null"⟩
      | some course =>
        let total := course.lessons.length
        if 0 < total then
          let newPct := jsRound100 p'.completedLessons.length total
          let e' := syncedEnrollment e newPct
          let st2 :=
            if e.progress ≠ newPct then
              { st1 with enrollments := replaceEnrollment st1.enrollments sid cid e' }
            else st1
          let st3 :=
            if e'.completed then
              { st2 with certCalls := st2.certCalls ++ [(sid, cid)] }
            else st2
          .ok ⟨st3, e'.progress⟩
        else
          .ok ⟨st1, e.progress⟩
    else
      .error ⟨404, "Lesson not found in this course."⟩

/-- A sequence of `updateProgress` calls by one student on one course;
records, per successful step, the reported percentage and the stored
`completed` flag afterwards. -/
def runUpdates (sid cid : Nat) : List (Nat × Bool) → ProgressState →
    Except HttpError (ProgressState × List (Nat × Bool))
  | [], st => .ok (st, [])
  | (lid, comp) :: rest, st =>
    match updateProgress sid cid lid comp st with
    | .error e => .error e
    | .ok r =>
      match runUpdates sid cid rest r.state with
      | .error e => .error e
      | .ok (st', outs) =>
        .ok (st', (r.enrollmentPercentage,
          ((findEnrollment r.state.enrollments sid cid).map
            (fun e => e.completed)).getD false) :: outs)

/-- Response payload of POST /api/progress/recalculate/:courseId. -/
structure RecalcResult where
  enrollments : List Enrollment
  totalLessons : Nat
  updatedEnrollments : Nat
deriving DecidableEq, Repr

/-- `recalculateCourseProgress` (progress controller, instructor/admin
POST /api/progress/recalculate/:courseId): requires the course and
authorization; returns early when `Lesson.countDocuments` is zero; for
each enrollment of the course that has a progress document, rewrites the
stored percent from the completed-lesson count over the live total;
enrollments without a progress document are skipped. -/
def recalculateCourseProgress (cid : Nat) (user : Requester)
    (st : ProgressState) : Except HttpError RecalcResult :=
  match st.courses.find? (fun c => c.id == cid) with
  | none => .error ⟨404, "Course not found"⟩
  | some course =>
    if course.instructor ≠ user.id ∧ user.role ≠ "admin" then
      .error ⟨403, "Not authorized to recalculate progress for this course"⟩
    else
      let total := totalLessonsIn st cid
      if total = 0 then
        .ok ⟨st.enrollments, 0, 0⟩
      else
        let upd := st.enrollments.map fun e =>
          if e.course == cid then
            match findProgress st.progresses e.student cid with
            | some p =>
              let pct := jsRound100 p.completedLessons.length total
              { e with progress := pct, completed := pct == 100 }
            | none => e
          else e
        let count := ((st.enrollments.filter (fun e => e.course == cid)).filter
          (fun e => (findProgress st.progresses e.student cid).isSome)).length
        .ok ⟨upd, total, count⟩

/-- `updateEnrollmentProgress` (enrollment controller, student PATCH
/api/enrollments/:id/progress): validates the client-supplied number,
requires the enrollment and ownership, then writes the progress value
directly onto the enrollment, setting `completed` exactly when the value
is 100. -/
def updateEnrollmentProgress (progress : Int) (findEnr : Option Enrollment)
    (requesterId : Nat) : Except HttpError Enrollment :=
  if progress < 0 ∨ progress > 100 then
    .error ⟨400, "Progress must be a number between 0 and 100"⟩
  else
    match findEnr with
    | none => .error ⟨404, "Enrollment not found"⟩
    | some e =>
      if e.student ≠ requesterId then
        .error ⟨403, "Not authorized to update this enrollment"⟩
      else
        let p := progress.toNat
        .ok { e with progress := p, completed := p == 100 }

/-! ## Certificate issuer (certificate service and
src/models/certificate.model.js) -/

/-- Certificate document: unique compound index on (student, course). -/
structure Certificate where
  student : Nat
  course : Nat
  certificateUrl : String
deriving DecidableEq, Repr

/-- `Certificate.findOne({ student, course })` viewed as existence. -/
def certExists (l : List Certificate) (s c : Nat) : Bool :=
  l.any fun x => x.student == s && x.course == c

/-- Number of certificates stored for a pair. -/
def certCount (l : List Certificate) (s c : Nat) : Nat :=
  (l.filter fun x => x.student == s && x.course == c).length

/-- `Certificate.create` under the unique (student, course) index: the
insert succeeds only when no certificate for the pair exists at insert
time; a duplicate raises a key error, which the service's catch-all
swallows, leaving the collection unchanged. -/
def tryInsertCert (l : List Certificate) (s c : Nat) (url : String) :
    List Certificate :=
  if certExists l s c then l else l ++ [⟨s, c, url⟩]

/-- `generateAndUploadCertificate` (certificate service): returns at once
when a certificate for the pair already exists; otherwise it requires the
student and course to resolve, renders and uploads the document (the
collaborators' success is the `uploadOk` flag; any failure is caught and
logged), and finally persists the certificate record through the
index-guarded insert. -/
def generateAndUploadCertificate (studentId courseId : Nat)
    (studentExists courseExists uploadOk : Bool) (url : String)
    (certs : List Certificate) : List Certificate :=
  if certExists certs studentId courseId then certs
  else if studentExists = false ∨ courseExists = false then certs
  else if uploadOk = false then certs
  else tryInsertCert certs studentId courseId url

/-- The storage-level effect of any interleaving of concurrent issuer
invocations: each invocation contributes at most one index-guarded insert,
and reads have no effect, so a schedule is a sequence of `tryInsertCert`
steps. -/
def runInserts (ops : List (Nat × Nat × String)) (l : List Certificate) :
    List Certificate :=
  ops.foldl (fun acc op => tryInsertCert acc op.1 op.2.1 op.2.2) l

/-! ## Concrete states used by the scenario theorems -/

/-- A pending course order of buyer 1 for course 2. -/
def sampleOrder : Order := ⟨1, 2, 500, "bkash", "017", "tx1", .pending⟩

/-- The same order after the admin marked it paid. -/
def samplePaidOrder : Order := ⟨1, 2, 500, "bkash", "017", "tx1", .paid⟩

/-- The status body `{ paymentStatus: "paid" }`. -/
def samplePaidBody : OrderStatusBody := ⟨"paid", none, none⟩

/-- A paid digital order of buyer 3: one line item, one token with
`maxDownloads = 5` and `downloads = 0`. -/
def sampleDigitalOrder : DigitalOrder :=
  ⟨3, [⟨10, 100, "Ebook"⟩], 100, "bkash", .paid, "txd",
   [⟨10, "tok", 999, 5, 0⟩]⟩

/-- A pending digital order of buyer 3 with one line item and no tokens. -/
def samplePendingDigitalOrder : DigitalOrder :=
  ⟨3, [⟨10, 100, "Ebook"⟩], 100, "bkash", .pending, "txd", []⟩

/-- Buyer 3 acting as the requester. -/
def sampleRequester : Requester := ⟨3, "student"⟩

/-- A deterministic stand-in for the random token stream. -/
def sampleGen (i : Nat) : String := "tk" ++ toString i

/-- The result of marking the pending sample digital order paid at time
1000 with the sample token stream. -/
def sampleMarkPaidResult : MarkPaidResult :=
  ⟨⟨3, [⟨10, 100, "Ebook"⟩], 100, "bkash", .paid, "txd",
    [⟨10, "tk0", 1000 + sevenDaysMs, 5, 0⟩]⟩, [3]⟩

/-- Course 100 with four lessons (1–4) recorded both in the course
document and in the lesson collection, and a fresh enrollment of
student 5. -/
def fourLessonState : ProgressState :=
  { courses := [{ id := 100, instructor := 9, lessons := [1, 2, 3, 4] }],
    lessons := [⟨1, 100⟩, ⟨2, 100⟩, ⟨3, 100⟩, ⟨4, 100⟩],
    enrollments := [⟨5, 100, 0, false⟩],
    progresses := [],
    certCalls := [] }

/-- Course 200 whose document records no lessons while lesson 1 of the
collection still points at it, and an enrollment of student 5 whose stored
percent is 50. -/
def zeroLessonState : ProgressState :=
  { courses := [{ id := 200, instructor := 9, lessons := [] }],
    lessons := [⟨1, 200⟩],
    enrollments := [⟨5, 200, 50, false⟩],
    progresses := [],
    certCalls := [] }

/-- Course 200 with one lesson, an enrollment of student 5 whose stored
percent is 50, and no progress document for student 5. -/
def staleRecalcState : ProgressState :=
  { courses := [{ id := 200, instructor := 9 }],
    lessons := [⟨1, 200⟩],
    enrollments := [⟨5, 200, 50, false⟩],
    progresses := [],
    certCalls := [] }

/-- Course 200 with two lessons and two enrolled students: student 6 has a
progress document with one completed lesson, student 5 has none (and a
stale stored percent of 50). -/
def recalcWitnessState : ProgressState :=
  { courses := [{ id := 200, instructor := 9 }],
    lessons := [⟨1, 200⟩, ⟨2, 200⟩],
    enrollments := [⟨5, 200, 50, false⟩, ⟨6, 200, 0, false⟩],
    progresses := [⟨6, 200, [1], some 1⟩],
    certCalls := [] }

/-- The outcome of completing lesson 1 in `fourLessonState`. -/
def sampleProgressResult : UpdateProgressResult :=
  ⟨{ fourLessonState with
      enrollments := [⟨5, 100, 25, false⟩],
      progresses := [⟨5, 100, [1], some 1⟩] }, 25⟩

/-! ## Helper lemmas -/

/-- Replacing every element satisfying `p` by a fixed element satisfying
`p` commutes with `find?`. -/
theorem find?_map_update {α : Type} (p : α → Bool) (x : α) (hx : p x = true) :
    ∀ l : List α,
      (l.map fun a => if p a then x else a).find? p = (l.find? p).map fun _ => x
  | [] => rfl
  | a :: l => by
    by_cases h : p a = true
    · rw [List.map_cons, if_pos h, List.find?_cons_of_pos _ hx,
        List.find?_cons_of_pos _ h, Option.map_some']
    · rw [List.map_cons, if_neg h, List.find?_cons_of_neg _ h,
        List.find?_cons_of_neg _ h, find?_map_update p x hx l]

/-- `find?` skips a prefix in which nothing matches. -/
theorem find?_append_of_none {α : Type} (p : α → Bool) (l₁ l₂ : List α)
    (h : l₁.find? p = none) : (l₁ ++ l₂).find? p = l₂.find? p := by
  rw [List.find?_append, h, Option.none_or]

/-- A list whose `any` is false has no `find?` result. -/
theorem find?_eq_none_of_any_false {α : Type} (p : α → Bool) (l : List α)
    (h : l.any p = false) : l.find? p = none := by
  rw [List.find?_eq_none]
  intro x hx hpx
  have : l.any p = true := List.any_eq_true.mpr ⟨x, hx, hpx⟩
  rw [h] at this
  cases this

/-- `syncedEnrollment` never changes the student. -/
theorem syncedEnrollment_student (e : Enrollment) (n : Nat) :
    (syncedEnrollment e n).student = e.student := by
  unfold syncedEnrollment
  by_cases h : e.progress ≠ n
  · rw [if_pos h]
  · rw [if_neg h]

/-- `syncedEnrollment` never changes the course. -/
theorem syncedEnrollment_course (e : Enrollment) (n : Nat) :
    (syncedEnrollment e n).course = e.course := by
  unfold syncedEnrollment
  by_cases h : e.progress ≠ n
  · rw [if_pos h]
  · rw [if_neg h]

/-- The enrollment key predicate is preserved by the synchronization
write. -/
theorem enrKey_syncedEnrollment (s c : Nat) (e : Enrollment) (n : Nat)
    (h : enrKey s c e = true) : enrKey s c (syncedEnrollment e n) = true := by
  unfold enrKey at h ⊢
  rw [syncedEnrollment_student, syncedEnrollment_course]
  exact h

/-- Looking the pair up after `replaceEnrollment` yields the written
document whenever the pair was present. -/
theorem findEnrollment_replaceEnrollment (l : List Enrollment) (s c : Nat)
    (e' : Enrollment) (hk : enrKey s c e' = true) :
    findEnrollment (replaceEnrollment l s c e') s c =
      (findEnrollment l s c).map fun _ => e' := by
  unfold findEnrollment replaceEnrollment
  exact find?_map_update (enrKey s c) e' hk l

/-- The progress document produced by the update keeps the pair's key. -/
theorem pKey_progressAfter (ps : List ProgressDoc) (sid cid lid : Nat)
    (comp : Bool) : pKey sid cid (progressAfter ps sid cid lid comp) = true := by
  unfold progressAfter
  cases hfp : findProgress ps sid cid with
  | none => simp [pKey]
  | some p0 =>
    have := List.find?_some hfp
    simpa [pKey] using this

/-- Looking the pair up after the upsert yields the written document. -/
theorem findProgress_upsertProgress (l : List ProgressDoc) (s c : Nat)
    (p' : ProgressDoc) (hk : pKey s c p' = true) :
    findProgress (upsertProgress l s c p') s c = some p' := by
  unfold upsertProgress findProgress
  by_cases h : l.any (pKey s c) = true
  · rw [if_pos h, find?_map_update (pKey s c) p' hk l]
    obtain ⟨x, hx, hpx⟩ := List.any_eq_true.mp h
    cases hfind : l.find? (pKey s c) with
    | none =>
      rw [List.find?_eq_none] at hfind
      exact absurd hpx (hfind x hx)
    | some q => rfl
  · have hb : l.any (pKey s c) = false := by
      cases hv : l.any (pKey s c) with
      | false => rfl
      | true => exact absurd hv h
    rw [if_neg h, find?_append_of_none _ _ _ (find?_eq_none_of_any_false _ _ hb),
      List.find?_cons_of_pos _ hk]

/-- A pair with zero stored enrollments has no lookup result. -/
theorem findEnrollment_eq_none_of_count_zero (l : List Enrollment) (s c : Nat)
    (h : enrollCount l s c = 0) : findEnrollment l s c = none := by
  unfold enrollCount at h
  unfold findEnrollment
  rw [List.length_eq_zero] at h
  rw [List.find?_eq_none]
  intro x hx hpx
  have : x ∈ l.filter (enrKey s c) := List.mem_filter.mpr ⟨hx, hpx⟩
  rw [h] at this
  cases this

/-- Appending one enrollment matching the key raises the count by one. -/
theorem enrollCount_append_match (l : List Enrollment) (s c : Nat)
    (e : Enrollment) (he : enrKey s c e = true) :
    enrollCount (l ++ [e]) s c = enrollCount l s c + 1 := by
  unfold enrollCount
  rw [List.filter_append]
  simp [he]

/-- Every token minted by the grant has fresh counters: the schema
defaults `downloads = 0`, `maxDownloads = 5`, and the 7-day expiry. -/
theorem mintTokens_fresh (gen : Nat → String) (now : Nat) :
    ∀ (i : Nat) (items : List OrderItem) (t : DownloadToken),
      t ∈ mintTokens gen now i items →
      t.downloads = 0 ∧ t.maxDownloads = 5 ∧ t.expiresAt = now + sevenDaysMs
  | _, [], _, h => by cases h
  | i, it :: rest, t, h => by
    rw [mintTokens] at h
    cases h with
    | head => exact ⟨rfl, rfl, rfl⟩
    | tail _ hmem => exact mintTokens_fresh gen now (i + 1) rest t hmem

/-- One token is minted per line item. -/
theorem mintTokens_length (gen : Nat → String) (now : Nat) :
    ∀ (i : Nat) (items : List OrderItem),
      (mintTokens gen now i items).length = items.length
  | _, [] => rfl
  | i, it :: rest => by
    rw [mintTokens, List.length_cons, List.length_cons,
      mintTokens_length gen now (i + 1) rest]

/-- An authorized read of a paid order's links succeeds and leaves the
order untouched. -/
theorem getDownloadLinks_ok (o : DigitalOrder) (req : Requester)
    (hu : o.user = req.id) (hp : o.paymentStatus = .paid) :
    getDownloadLinks (some o) req = .ok (o, o.items.map (linkFor o)) := by
  unfold getDownloadLinks
  dsimp only
  rw [if_neg (by intro hc; exact hc.1 hu), if_neg (by simp [hp])]

/-- Any number of link reads by the buyer of a paid order succeeds without
changing the order. -/
theorem iterateDownloads_ok (o : DigitalOrder) (req : Requester)
    (hu : o.user = req.id) (hp : o.paymentStatus = .paid) :
    ∀ n : Nat, iterateDownloads req n o = .ok o
  | 0 => rfl
  | n + 1 => by
    rw [iterateDownloads, getDownloadLinks_ok o req hu hp]
    exact iterateDownloads_ok o req hu hp n

/-- A pair absent from the certificate store has count zero. -/
theorem certCount_eq_zero_of_not_exists (l : List Certificate) (s c : Nat)
    (h : certExists l s c = false) : certCount l s c = 0 := by
  unfold certExists at h
  unfold certCount
  rw [List.length_eq_zero, List.filter_eq_nil_iff]
  intro a ha hpa
  have : l.any (fun x => x.student == s && x.course == c) = true :=
    List.any_eq_true.mpr ⟨a, ha, hpa⟩
  rw [h] at this
  cases this

/-- The index-guarded insert preserves the at-most-one invariant for every
pair. -/
theorem certCount_tryInsertCert_le (l : List Certificate) (s c s' c' : Nat)
    (url : String) (h : certCount l s c ≤ 1) :
    certCount (tryInsertCert l s' c' url) s c ≤ 1 := by
  unfold tryInsertCert
  by_cases hex : certExists l s' c' = true
  · rw [if_pos hex]; exact h
  · have hb : certExists l s' c' = false := by
      cases hv : certExists l s' c' with
      | false => rfl
      | true => exact absurd hv hex
    rw [if_neg hex]
    unfold certCount
    rw [List.filter_append]
    by_cases hmatch : ((⟨s', c', url⟩ : Certificate).student == s &&
        (⟨s', c', url⟩ : Certificate).course == c) = true
    · have hsc : s' = s ∧ c' = c := by
        simpa using hmatch
      have h0 : certCount l s c = 0 := by
        apply certCount_eq_zero_of_not_exists
        rw [← hsc.1, ← hsc.2]
        exact hb
      unfold certCount at h0
      simp [hmatch, h0]
    · simp only [List.filter, hmatch]
      simpa [certCount] using h

/-- Any schedule of index-guarded inserts preserves the at-most-one
invariant for every pair. -/
theorem certCount_runInserts_le (s c : Nat) :
    ∀ (ops : List (Nat × Nat × String)) (l : List Certificate),
      certCount l s c ≤ 1 → certCount (runInserts ops l) s c ≤ 1
  | [], _, h => h
  | op :: ops, l, h => by
    rw [runInserts, List.foldl_cons]
    exact certCount_runInserts_le s c ops _
      (certCount_tryInsertCert_le l s c op.1 op.2.1 op.2.2 h)

/-- A list relates pointwise to its own image under `map`. -/
theorem forall₂_map_self {α : Type} (R : α → α → Prop) (f : α → α) :
    ∀ l : List α, (∀ a ∈ l, R a (f a)) → List.Forall₂ R l (l.map f)
  | [], _ => List.Forall₂.nil
  | a :: l, h => by
    rw [List.map_cons]
    exact List.Forall₂.cons (h a (.head l))
      (forall₂_map_self R f l fun b hb => h b (.tail a hb))

/-- The body assignments never touch the line items. -/
theorem applyMarkPaidBody_items (body : MarkPaidBody) (o : DigitalOrder) :
    (applyMarkPaidBody body o).items = o.items := by
  unfold applyMarkPaidBody
  cases body.paymentStatus <;> cases body.transactionId <;> rfl

/-! ## Claim theorems -/

/-- C2: for every (student, course) pair at most one Certificate ever
exists — any interleaving of concurrent issuer invocations acts on the
store as a schedule of inserts guarded by the unique (student, course)
index, and every such schedule preserves the at-most-one invariant — and
when a Certificate for the pair already exists,
`generateAndUploadCertificate` returns without performing any side
effect. -/
theorem C2_certificate_unique (s c : Nat) (certs : List Certificate) :
    (∀ ops : List (Nat × Nat × String), certCount certs s c ≤ 1 →
      certCount (runInserts ops certs) s c ≤ 1) ∧
    (∀ (studentE courseE uploadOk : Bool) (url : String),
      certExists certs s c = true →
      generateAndUploadCertificate s c studentE courseE uploadOk url certs =
        certs) := by
  constructor
  · intro ops h
    exact certCount_runInserts_le s c ops certs h
  · intro sE cE uOk url hex
    unfold generateAndUploadCertificate
    rw [if_pos hex]

/-- C2 witness: a store already holding the certificate of pair (7, 9)
absorbs two more racing inserts, and the issuer is a no-op on it. -/
theorem C2_certificate_unique_witness :
    certCount (runInserts [(7, 9, "a"), (7, 9, "b")] [⟨7, 9, "u"⟩]) 7 9 ≤ 1 ∧
    generateAndUploadCertificate 7 9 true true true "x" [⟨7, 9, "u"⟩] =
      [⟨7, 9, "u"⟩] :=
  ⟨(C2_certificate_unique 7 9 [⟨7, 9, "u"⟩]).1 [(7, 9, "a"), (7, 9, "b")]
      (by decide),
    (C2_certificate_unique 7 9 [⟨7, 9, "u"⟩]).2 true true true "x" (by decide)⟩

/-- C4 counterexample: the repository has no `recordDownload` consumption
step.  On a paid digital order whose only token has `maxDownloads = 5` and
`downloads = 0`, six successive invocations of the only download
operation, `getDownloadLinks`, all succeed and leave the order — the
`downloads` counter included — untouched, so the sixth call does not fail
with `QuotaExceeded`, and no call ever decrements the quota. -/
theorem C4_counterexample_no_quota_enforcement :
    iterateDownloads sampleRequester 6 sampleDigitalOrder =
      .ok sampleDigitalOrder ∧
    getDownloadLinks (some sampleDigitalOrder) sampleRequester =
      .ok (sampleDigitalOrder, [⟨10, some "tok", some 999, 5⟩]) :=
  ⟨rfl, rfl⟩

/-- C4 amended: no separate `recordDownload` consumption step exists; the
only download operation, `getDownloadLinks`, is read-only — any number of
invocations by the buyer of a paid order succeeds without changing the
order or its `downloads` counters — and it reports, per line item,
`remaining = max(0, maxDownloads − downloads)` without ever raising a
quota or expiry failure. -/
theorem C4_amended_links_read_only (o : DigitalOrder) (req : Requester)
    (n : Nat) (hu : o.user = req.id) (hp : o.paymentStatus = .paid) :
    iterateDownloads req n o = .ok o ∧
    getDownloadLinks (some o) req = .ok (o, o.items.map (linkFor o)) :=
  ⟨iterateDownloads_ok o req hu hp n, getDownloadLinks_ok o req hu hp⟩

/-- C4 witness: three reads of the sample paid order all succeed and
change nothing. -/
theorem C4_amended_links_read_only_witness :
    iterateDownloads sampleRequester 3 sampleDigitalOrder =
      .ok sampleDigitalOrder ∧
    getDownloadLinks (some sampleDigitalOrder) sampleRequester =
      .ok (sampleDigitalOrder,
        sampleDigitalOrder.items.map (linkFor sampleDigitalOrder)) :=
  C4_amended_links_read_only sampleDigitalOrder sampleRequester 3 rfl rfl

/-- C5 counterexample: `updateOrder` (admin PUT /api/orders/:id) changes
the paymentStatus of a paid Order: applied to a paid order with
`{ paymentStatus: "failed" }` it succeeds and stores status failed, so
paid is not terminal under order-update operations. -/
theorem C5_counterexample_update_order_changes_paid :
    updateOrder { paymentStatus := some .failed } (some samplePaidOrder) []
        true =
      .ok ⟨⟨1, 2, 500, "bkash", "017", "tx1", .failed⟩, [], []⟩ ∧
    PayStatus.failed ≠ PayStatus.paid :=
  ⟨rfl, by decide⟩

/-- C5 amended: the status-update endpoint alone treats paid as terminal:
once an Order's paymentStatus is paid, `updateOrderStatus` never succeeds
(it rejects with an error), so it never changes the status; the
order-update endpoint `updateOrder` and the digital-order status endpoint
remain able to overwrite a paid status. -/
theorem C5_amended_status_endpoint_terminal (body : OrderStatusBody)
    (o : Order) (enrs : List Enrollment) (emailOk : Bool)
    (hp : o.paymentStatus = .paid) :
    ∀ r, updateOrderStatus body (some o) enrs emailOk ≠ .ok r := by
  intro r h
  unfold updateOrderStatus at h
  cases hps : parseStatus body.paymentStatus with
  | none => rw [hps] at h; cases h
  | some st =>
    rw [hps] at h
    dsimp only at h
    rw [if_pos hp] at h
    cases h

/-- C5 witness: the paid sample order rejects a repeated status update. -/
theorem C5_amended_status_endpoint_terminal_witness :
    samplePaidOrder.paymentStatus = .paid ∧
    updateOrderStatus samplePaidBody (some samplePaidOrder) [] true ≠
      .ok ⟨samplePaidOrder, [], []⟩ :=
  ⟨rfl, C5_amended_status_endpoint_terminal samplePaidBody samplePaidOrder []
    true rfl ⟨samplePaidOrder, [], []⟩⟩

/-- C9 counterexample: the exposed PATCH /api/enrollments/:id/progress
endpoint — an operation other than the Progress Tracker's recompute —
changes Enrollment.progress: invoked by the owning student with the body
value 50 on an enrollment whose stored progress is 0, it succeeds and
stores 50. -/
theorem C9_counterexample_direct_progress_write :
    updateEnrollmentProgress 50 (some ⟨5, 100, 0, false⟩) 5 =
      .ok ⟨5, 100, 50, false⟩ ∧ (50 : Nat) ≠ 0 :=
  ⟨rfl, by decide⟩

/-- C9 amended: besides the Progress Tracker's recompute and the
administrative recompute, the exposed enrollment endpoint
`updateEnrollmentProgress` also mutates Enrollment.progress and
Enrollment.completed: for any in-range client value it overwrites the
stored percent with that value and sets completed exactly when the value
is 100. -/
theorem C9_amended_direct_endpoint_mutates (p : Int) (e : Enrollment)
    (uid : Nat) (h0 : 0 ≤ p) (h1 : p ≤ 100) (hu : e.student = uid) :
    updateEnrollmentProgress p (some e) uid =
      .ok { e with progress := p.toNat, completed := p.toNat == 100 } := by
  unfold updateEnrollmentProgress
  rw [if_neg (by omega)]
  dsimp only
  rw [if_neg (fun hc => hc hu)]

/-- C9 witness: student 5 writes 50 onto their enrollment directly. -/
theorem C9_amended_direct_endpoint_mutates_witness :
    updateEnrollmentProgress 50 (some ⟨5, 100, 0, false⟩) 5 =
      .ok { (⟨5, 100, 0, false⟩ : Enrollment) with
              progress := (50 : Int).toNat,
              completed := (50 : Int).toNat == 100 } :=
  C9_amended_direct_endpoint_mutates 50 ⟨5, 100, 0, false⟩ 5 (by decide)
    (by decide) rfl

/-- C10: after every admin status update of a DigitalOrder, the token list
is non-empty only if the order is paid; every update that leaves the order
paid replaces the token set with freshly generated tokens — one per line
item, `downloads = 0`, `maxDownloads = 5`, expiry seven days from now —
and every update that leaves any non-paid status clears the token set. -/
theorem C10_tokens_iff_paid (body : MarkPaidBody) (o : DigitalOrder)
    (gen : Nat → String) (now : Nat) (emailOk : Bool) (r : MarkPaidResult)
    (h : adminMarkPaid body (some o) gen now emailOk = .ok r) :
    (r.order.downloadTokens ≠ [] → r.order.paymentStatus = .paid) ∧
    (r.order.paymentStatus = .paid →
      r.order.downloadTokens = mintTokens gen now 0 o.items ∧
      r.order.downloadTokens.length = o.items.length ∧
      ∀ t ∈ r.order.downloadTokens,
        t.downloads = 0 ∧ t.maxDownloads = 5 ∧
          t.expiresAt = now + sevenDaysMs) ∧
    (r.order.paymentStatus ≠ .paid → r.order.downloadTokens = []) := by
  unfold adminMarkPaid at h
  dsimp only at h
  split at h
  case isTrue hpaid =>
    cases h
    dsimp only
    rw [applyMarkPaidBody_items]
    refine ⟨fun _ => hpaid, fun _ => ⟨rfl, mintTokens_length gen now 0 o.items,
      fun t ht => mintTokens_fresh gen now 0 o.items t ht⟩, fun hne => ?_⟩
    exact absurd hpaid hne
  case isFalse hnp =>
    cases h
    dsimp only
    exact ⟨fun hne => absurd rfl hne, fun hpd => absurd hpd hnp,
      fun _ => rfl⟩

/-- C1 counterexample: a second `updateOrderStatus(id, "paid")` invocation
on an already-paid order is not a no-op free of errors: the first call on
the pending sample order succeeds and creates the single enrollment, and
the repeated call is rejected with a 400 error. -/
theorem C1_counterexample_second_paid_errors :
    updateOrderStatus samplePaidBody (some sampleOrder) [] true =
      .ok ⟨samplePaidOrder, [⟨1, 2, 0, false⟩], [1]⟩ ∧
    updateOrderStatus samplePaidBody (some samplePaidOrder)
        [⟨1, 2, 0, false⟩] true =
      .error ⟨400,
        "This order has already been completed and cannot be changed."⟩ :=
  ⟨rfl, rfl⟩

/-- C1 amended: marking a pending course Order paid creates exactly one
Enrollment, and the second invocation is rejected with an error (rather
than succeeding silently), so no duplicate grant can arise; for a
DigitalOrder, a second `adminMarkPaid("paid")` raises no error but is not
a no-op: it replaces the download token set with freshly generated tokens
(still exactly one token per line item). -/
theorem C1_amended_paid_twice :
    (∀ (body : OrderStatusBody) (o : Order) (enrs : List Enrollment)
        (emailOk : Bool),
      parseStatus body.paymentStatus = some .paid →
      body.transactionId = none → body.paymentNumber = none →
      o.paymentStatus = .pending →
      enrollCount enrs o.user o.course = 0 →
      updateOrderStatus body (some o) enrs emailOk =
        .ok ⟨{ o with paymentStatus := .paid },
             enrs ++ [⟨o.user, o.course, 0, false⟩],
             if emailOk then [o.user] else []⟩ ∧
      enrollCount (enrs ++ [⟨o.user, o.course, 0, false⟩]) o.user o.course
        = 1 ∧
      ∀ r₂, updateOrderStatus body (some { o with paymentStatus := .paid })
        (enrs ++ [⟨o.user, o.course, 0, false⟩]) emailOk ≠ .ok r₂) ∧
    (∀ (d : DigitalOrder) (gen gen2 : Nat → String) (now now2 : Nat)
        (e1 e2 : Bool), d.paymentStatus = .pending →
      ∃ r1 r2,
        adminMarkPaid ⟨some .paid, none⟩ (some d) gen now e1 = .ok r1 ∧
        adminMarkPaid ⟨some .paid, none⟩ (some r1.order) gen2 now2 e2 =
          .ok r2 ∧
        r1.order.downloadTokens = mintTokens gen now 0 d.items ∧
        r2.order.downloadTokens = mintTokens gen2 now2 0 d.items ∧
        r2.order.downloadTokens.length = d.items.length) := by
  constructor
  · intro body o enrs emailOk hb htx hpn hp h0
    have he : enrolledIn enrs o.user o.course = false := by
      unfold enrolledIn
      rw [findEnrollment_eq_none_of_count_zero _ _ _ h0, Option.isSome_none]
    refine ⟨?_, ?_, ?_⟩
    · unfold updateOrderStatus
      rw [hb, htx, hpn]
      dsimp only
      rw [if_neg (by rw [hp]; exact fun hc => PayStatus.noConfusion hc),
        if_pos rfl, if_neg (by simp [he])]
    · rw [enrollCount_append_match enrs o.user o.course _ (by simp [enrKey]),
        h0]
    · intro r₂ hcon
      unfold updateOrderStatus at hcon
      rw [hb] at hcon
      dsimp only at hcon
      rw [if_pos rfl] at hcon
      exact Except.noConfusion hcon
  · intro d gen gen2 now now2 e1 e2 hp
    refine ⟨_, _, rfl, rfl, rfl, rfl, ?_⟩
    exact mintTokens_length gen2 now2 0 d.items

/-- C1 witness: the sample pending order and pending digital order run the
two-invocation scenario. -/
theorem C1_amended_paid_twice_witness :
    (updateOrderStatus samplePaidBody (some sampleOrder) [] true =
      .ok ⟨{ sampleOrder with paymentStatus := .paid },
           [] ++ [⟨sampleOrder.user, sampleOrder.course, 0, false⟩],
           if true then [sampleOrder.user] else []⟩ ∧
    enrollCount ([] ++ [⟨sampleOrder.user, sampleOrder.course, 0, false⟩])
      sampleOrder.user sampleOrder.course = 1 ∧
    ∀ r₂, updateOrderStatus samplePaidBody
      (some { sampleOrder with paymentStatus := .paid })
      ([] ++ [⟨sampleOrder.user, sampleOrder.course, 0, false⟩]) true ≠
        .ok r₂) ∧
    (∃ r1 r2,
      adminMarkPaid ⟨some .paid, none⟩ (some samplePendingDigitalOrder)
        sampleGen 1000 true = .ok r1 ∧
      adminMarkPaid ⟨some .paid, none⟩ (some r1.order) sampleGen 2000 true =
        .ok r2 ∧
      r1.order.downloadTokens =
        mintTokens sampleGen 1000 0 samplePendingDigitalOrder.items ∧
      r2.order.downloadTokens =
        mintTokens sampleGen 2000 0 samplePendingDigitalOrder.items ∧
      r2.order.downloadTokens.length =
        samplePendingDigitalOrder.items.length) :=
  ⟨C1_amended_paid_twice.1 samplePaidBody sampleOrder [] true rfl rfl rfl rfl
      rfl,
    C1_amended_paid_twice.2 samplePendingDigitalOrder sampleGen sampleGen
      1000 2000 true true rfl⟩

/-- C7: every zero-price purchase is granted synchronously in the same
call and the confirmation email cannot fail the request.  A free published
course order for a not-yet-enrolled buyer succeeds with 201, appends an
Order already in paid status and the Enrollment, and only the delivered
email log depends on the email collaborator; a free digital checkout from
a non-empty zero-subtotal cart succeeds with 201, creates the DigitalOrder
in paid status with one fresh token per cart item, and clears the cart. -/
theorem C7_free_purchase_synchronous_grant :
    (∀ (userId cid : Nat) (courses : List Course) (orders : List Order)
        (enrs : List Enrollment) (course : Course) (emailOk : Bool),
      courses.find? (fun c => c.id == cid) = some course →
      course.isPublished = true → course.price = 0 →
      findEnrollment enrs userId cid = none →
      createOrder userId ⟨some cid, none, none, none⟩ courses orders enrs
          emailOk =
        .ok ⟨201,
          orders ++ [⟨userId, cid, 0, "free", "0",
            "free_" ++ toString userId ++ "_" ++ toString cid, .paid⟩],
          enrs ++ [⟨userId, cid, 0, false⟩],
          if emailOk then [userId] else []⟩) ∧
    (∀ (userId : Nat) (cart : Cart) (gen : Nat → String) (now : Nat)
        (emailOk : Bool), cart.items ≠ [] → cart.subtotal = 0 →
      ∃ r, checkoutFromCart userId ⟨none, none⟩ (some cart) gen now emailOk =
          .ok r ∧
        r.status = 201 ∧ r.order.paymentStatus = .paid ∧
        r.order.downloadTokens.length = cart.items.length ∧
        (∀ t ∈ r.order.downloadTokens,
          t.downloads = 0 ∧ t.expiresAt = now + sevenDaysMs) ∧
        r.cart.items = [] ∧ r.cart.subtotal = 0 ∧
        r.emails = if emailOk then [userId] else []) := by
  constructor
  · intro userId cid courses orders enrs course emailOk hcf hpub hprice hne
    unfold createOrder
    dsimp only
    rw [hcf]
    dsimp only
    have he2 : enrolledIn enrs userId cid = false := by
      unfold enrolledIn
      rw [hne, Option.isSome_none]
    rw [if_neg (by rw [hpub]; exact fun hc => Bool.noConfusion hc),
      if_neg (by simp [he2]), if_pos hprice]
  · intro userId cart gen now emailOk hne hsub
    have hemp : ¬ cart.items.isEmpty = true := by
      rw [List.isEmpty_iff]
      exact hne
    unfold checkoutFromCart
    dsimp only
    rw [if_neg hemp, if_pos hsub]
    refine ⟨_, rfl, rfl, rfl, ?_, ?_, rfl, rfl, rfl⟩
    · rw [mintTokens_length, List.length_map]
    · intro t ht
      have := mintTokens_fresh gen now 0 _ t ht
      exact ⟨this.1, this.2.2⟩

/-- C7 witness: buyer 1 obtains the free course 2 and buyer 3 checks out a
zero-subtotal cart with one item. -/
theorem C7_free_purchase_synchronous_grant_witness :
    (createOrder 1 ⟨some 2, none, none, none⟩
        [{ id := 2, instructor := 9, price := 0 }] [] [] true =
      .ok ⟨201,
        [] ++ [⟨1, 2, 0, "free", "0",
          "free_" ++ toString 1 ++ "_" ++ toString 2, .paid⟩],
        [] ++ [⟨1, 2, 0, false⟩],
        if true then [1] else []⟩) ∧
    (∃ r, checkoutFromCart 3 ⟨none, none⟩
        (some ⟨3, [⟨10, 1, 0, "Ebook"⟩], 0⟩) sampleGen 1000 true = .ok r ∧
      r.status = 201 ∧ r.order.paymentStatus = .paid ∧
      r.order.downloadTokens.length =
        ([⟨10, 1, 0, "Ebook"⟩] : List CartItem).length ∧
      (∀ t ∈ r.order.downloadTokens,
        t.downloads = 0 ∧ t.expiresAt = 1000 + sevenDaysMs) ∧
      r.cart.items = [] ∧ r.cart.subtotal = 0 ∧
      r.emails = if true then [3] else []) :=
  ⟨C7_free_purchase_synchronous_grant.1 1 2
      [{ id := 2, instructor := 9, price := 0 }] [] []
      { id := 2, instructor := 9, price := 0 } true rfl rfl rfl rfl,
    C7_free_purchase_synchronous_grant.2 3 ⟨3, [⟨10, 1, 0, "Ebook"⟩], 0⟩
      sampleGen 1000 true (by decide) rfl⟩

/-- C3 counterexample: a successful lesson-completion update does not set
the stored percent to 0 when the course has zero lessons.  In
`zeroLessonState` the course document records no lessons while lesson 1 of
the collection still belongs to the course, so the update succeeds, but
the synchronization block is skipped and the stale stored percent 50
survives instead of becoming 0. -/
theorem C3_counterexample_zero_lessons :
    (updateProgress 5 200 1 true zeroLessonState).toOption.map
      (fun r => (r.state.enrollments, r.enrollmentPercentage)) =
      some ([⟨5, 200, 50, false⟩], 50) ∧ (50 : Nat) ≠ 0 :=
  ⟨rfl, by decide⟩

/-- C3 amended: after every successful lesson-completion update, when the
course document records at least one lesson the stored percent equals
round(100 · |completedLessons| / totalLessons) recomputed from the updated
Progress document (which the update stores for the pair), and the
Enrollment collection is written only when the recomputed percent differs
from the stored value; when the course document records zero lessons the
Enrollment collection is left entirely unchanged (not set to 0). -/
theorem C3_amended_progress_sync (sid cid lid : Nat) (comp : Bool)
    (st : ProgressState) (r : UpdateProgressResult) (course : Course)
    (hc : st.courses.find? (fun c => c.id == cid) = some course)
    (h : updateProgress sid cid lid comp st = .ok r) :
    ∃ e, findEnrollment st.enrollments sid cid = some e ∧
      findProgress r.state.progresses sid cid =
        some (progressAfter st.progresses sid cid lid comp) ∧
      (0 < course.lessons.length →
        ∃ e', findEnrollment r.state.enrollments sid cid = some e' ∧
          e'.progress = jsRound100
            (progressAfter st.progresses sid cid lid
              comp).completedLessons.length course.lessons.length ∧
          (e.progress = jsRound100
              (progressAfter st.progresses sid cid lid
                comp).completedLessons.length course.lessons.length →
            r.state.enrollments = st.enrollments)) ∧
      (course.lessons.length = 0 → r.state.enrollments = st.enrollments) := by
  unfold updateProgress at h
  cases hfe : findEnrollment st.enrollments sid cid with
  | none => rw [hfe] at h; exact Except.noConfusion h
  | some e =>
    rw [hfe] at h
    dsimp only at h
    by_cases hl :
        st.lessons.any (fun l => l.id == lid && l.course == cid) = true
    · rw [if_pos hl, hc] at h
      dsimp only at h
      by_cases ht : 0 < course.lessons.length
      · rw [if_pos ht] at h
        cases h
        refine ⟨e, rfl, ?_, ?_, ?_⟩
        · simp only [apply_ite ProgressState.progresses, ite_self]
          exact findProgress_upsertProgress st.progresses sid cid _
            (pKey_progressAfter st.progresses sid cid lid comp)
        · intro _
          by_cases hw : e.progress ≠ jsRound100
              (progressAfter st.progresses sid cid lid
                comp).completedLessons.length course.lessons.length
          · refine ⟨syncedEnrollment e (jsRound100
              (progressAfter st.progresses sid cid lid
                comp).completedLessons.length course.lessons.length),
              ?_, ?_, ?_⟩
            · simp only [apply_ite ProgressState.enrollments, ite_self]
              rw [if_pos hw, findEnrollment_replaceEnrollment _ _ _ _
                (enrKey_syncedEnrollment sid cid e _ (List.find?_some hfe)),
                hfe, Option.map_some']
            · unfold syncedEnrollment
              rw [if_pos hw]
            · intro heq
              exact absurd heq hw
          · refine ⟨syncedEnrollment e (jsRound100
              (progressAfter st.progresses sid cid lid
                comp).completedLessons.length course.lessons.length),
              ?_, ?_, ?_⟩
            · simp only [apply_ite ProgressState.enrollments, ite_self]
              rw [if_neg hw, hfe]
              unfold syncedEnrollment
              rw [if_neg hw]
            · unfold syncedEnrollment
              rw [if_neg hw]
              exact of_not_not hw
            · intro _
              simp only [apply_ite ProgressState.enrollments, ite_self]
              rw [if_neg hw]
        · intro h0
          omega
      · rw [if_neg ht] at h
        cases h
        refine ⟨e, rfl, ?_, fun hlt => absurd hlt ht, fun _ => rfl⟩
        exact findProgress_upsertProgress st.progresses sid cid _
          (pKey_progressAfter st.progresses sid cid lid comp)
    · rw [if_neg hl] at h
      exact Except.noConfusion h

/-- C3 witness: completing lesson 1 of the four-lesson course stores
percent 25 = round(100 · 1 / 4) on the enrollment and the updated progress
document. -/
theorem C3_amended_progress_sync_witness :
    ∃ e, findEnrollment fourLessonState.enrollments 5 100 = some e ∧
      findProgress sampleProgressResult.state.progresses 5 100 =
        some (progressAfter fourLessonState.progresses 5 100 1 true) ∧
      (0 < ({ id := 100, instructor := 9, lessons := [1, 2, 3, 4] } :
          Course).lessons.length →
        ∃ e', findEnrollment sampleProgressResult.state.enrollments 5 100 =
            some e' ∧
          e'.progress = jsRound100
            (progressAfter fourLessonState.progresses 5 100 1
              true).completedLessons.length
            ({ id := 100, instructor := 9, lessons := [1, 2, 3, 4] } :
              Course).lessons.length ∧
          (e.progress = jsRound100
              (progressAfter fourLessonState.progresses 5 100 1
                true).completedLessons.length
              ({ id := 100, instructor := 9, lessons := [1, 2, 3, 4] } :
                Course).lessons.length →
            sampleProgressResult.state.enrollments =
              fourLessonState.enrollments)) ∧
      (({ id := 100, instructor := 9, lessons := [1, 2, 3, 4] } :
          Course).lessons.length = 0 →
        sampleProgressResult.state.enrollments =
          fourLessonState.enrollments) :=
  C3_amended_progress_sync 5 100 1 true fourLessonState sampleProgressResult
    { id := 100, instructor := 9, lessons := [1, 2, 3, 4] } rfl rfl

/-- C6 counterexample: the Certificate Issuer is not invoked only when the
Enrollment was not already marked completed.  After the four lessons of
course 100 are completed (percent 100, completed true, one issuer
invocation), re-completing lesson 4 — which leaves the percent at 100 and
the Enrollment already completed, performing no enrollment write — fires
the issuer a second time: the trigger is `if (enrollment.completed)`, not
a fresh completion. -/
theorem C6_counterexample_reissue_when_completed :
    (runUpdates 5 100 [(1, true), (2, true), (3, true), (4, true), (4, true)]
        fourLessonState).toOption.map (fun p => (p.2, p.1.certCalls)) =
      some ([(25, false), (50, false), (75, false), (100, true), (100, true)],
        [(5, 100), (5, 100)]) :=
  rfl

/-- C6 amended: on a course with 4 lessons and a fresh enrollment,
completing lessons 1 through 4 sequentially yields the percent sequence
25, 50, 75, 100, the completed flag flips to true exactly at the fourth
step, and exactly one certificate issuance is triggered by that sequence;
the issuer is invoked whenever the post-update completed flag is true
(percent 100), even when the Enrollment was already completed, and the
idempotent issuer absorbs such re-invocations. -/
theorem C6_amended_four_lesson_scenario :
    (runUpdates 5 100 [(1, true), (2, true), (3, true), (4, true)]
        fourLessonState).toOption.map (fun p => (p.2, p.1.certCalls)) =
      some ([(25, false), (50, false), (75, false), (100, true)],
        [(5, 100)]) :=
  rfl

/-- C8 counterexample: the administrative recompute does not re-derive the
percent of every enrolled student.  Course 200 has one lesson; student 5
is enrolled with a stale stored percent of 50 and no Progress document
(authoritative completed set empty, so the from-scratch percent is 0); the
recompute succeeds, reports zero updated enrollments, and leaves the stale
50 in place. -/
theorem C8_counterexample_missing_progress_skipped :
    recalculateCourseProgress 200 ⟨9, "instructor"⟩ staleRecalcState =
      .ok ⟨[⟨5, 200, 50, false⟩], 1, 0⟩ ∧
    jsRound100 0 1 = 0 ∧ (50 : Nat) ≠ 0 :=
  ⟨rfl, rfl, by decide⟩

/-- C8 amended: when the course has at least one lesson, the
administrative recompute rewrites the stored percent of exactly those
enrolled students of the course that have a Progress document — setting it
to round(100 · completed / total) over the live lesson count, with
completed set to whether the percent is 100 — and leaves every enrollment
without a Progress document (and every enrollment of other courses)
unchanged. -/
theorem C8_amended_recalc_characterization (cid : Nat) (user : Requester)
    (st : ProgressState) (r : RecalcResult)
    (h : recalculateCourseProgress cid user st = .ok r)
    (ht : 0 < totalLessonsIn st cid) :
    List.Forall₂ (fun e e' =>
      (e.course ≠ cid → e' = e) ∧
      (e.course = cid →
        (∀ p, findProgress st.progresses e.student cid = some p →
          e'.progress =
            jsRound100 p.completedLessons.length (totalLessonsIn st cid) ∧
          e'.completed = (e'.progress == 100) ∧
          e'.student = e.student ∧ e'.course = e.course) ∧
        (findProgress st.progresses e.student cid = none → e' = e)))
      st.enrollments r.enrollments := by
  unfold recalculateCourseProgress at h
  split at h
  · exact Except.noConfusion h
  · split at h
    · exact Except.noConfusion h
    · dsimp only at h
      split at h
      case isTrue h0 => exact absurd h0 (by omega)
      case isFalse h0 =>
        cases h
        dsimp only
        apply forall₂_map_self
        intro e he
        constructor
        · intro hne
          have hb : (e.course == cid) = false := by simpa using hne
          simp [hb]
        · intro heq
          have hb : (e.course == cid) = true := by simpa using heq
          constructor
          · intro p hp
            simp [hb, hp]
          · intro hp
            simp [hb, hp]

/-- C8 witness: in `recalcWitnessState` the recompute rewrites student 6
(who has a Progress document) to 50 and leaves student 5 (who has none)
stale at 50. -/
theorem C8_amended_recalc_characterization_witness :
    List.Forall₂ (fun e e' =>
      (e.course ≠ 200 → e' = e) ∧
      (e.course = 200 →
        (∀ p, findProgress recalcWitnessState.progresses e.student 200 =
            some p →
          e'.progress = jsRound100 p.completedLessons.length
            (totalLessonsIn recalcWitnessState 200) ∧
          e'.completed = (e'.progress == 100) ∧
          e'.student = e.student ∧ e'.course = e.course) ∧
        (findProgress recalcWitnessState.progresses e.student 200 = none →
          e' = e)))
      recalcWitnessState.enrollments
      [⟨5, 200, 50, false⟩, ⟨6, 200, 50, false⟩] :=
  C8_amended_recalc_characterization 200 ⟨9, "instructor"⟩ recalcWitnessState
    ⟨[⟨5, 200, 50, false⟩, ⟨6, 200, 50, false⟩], 2, 1⟩ rfl (by decide)

/-- C10 witness: marking the pending sample digital order paid mints one
fresh token per item; the conclusions hold of the concrete result. -/
theorem C10_tokens_iff_paid_witness :
    (sampleMarkPaidResult.order.downloadTokens ≠ [] →
      sampleMarkPaidResult.order.paymentStatus = .paid) ∧
    (sampleMarkPaidResult.order.paymentStatus = .paid →
      sampleMarkPaidResult.order.downloadTokens =
        mintTokens sampleGen 1000 0 samplePendingDigitalOrder.items ∧
      sampleMarkPaidResult.order.downloadTokens.length =
        samplePendingDigitalOrder.items.length ∧
      ∀ t ∈ sampleMarkPaidResult.order.downloadTokens,
        t.downloads = 0 ∧ t.maxDownloads = 5 ∧
          t.expiresAt = 1000 + sevenDaysMs) ∧
    (sampleMarkPaidResult.order.paymentStatus ≠ .paid →
      sampleMarkPaidResult.order.downloadTokens = []) :=
  C10_tokens_iff_paid ⟨some .paid, none⟩ samplePendingDigitalOrder sampleGen
    1000 true sampleMarkPaidResult rfl

end Sariyah
